import Mathlib

/-!
Verification development for the integraite SRE backend.

This file gives a shallow Lean embedding of the incident-resolution core of
the repository and proves or refutes the specification claims about it.

Embedded source locations (paths relative to the repository root):
- backend/app/services/agent_executor.py          (DatabaseSREAgent)
- backend/app/services/self_healing_sre_agent.py  (SREAgent and module-level tools)
- backend/app/services/sre_execution_service.py   (query service)
- backend/app/api/v1/endpoints/sre_agent.py       (active trigger endpoint)
- backend/app/api/v1/endpoints/sre_agent_bkp.py   (backup trigger endpoint)
-/

namespace Integraite

/-! ## String helpers

Executable substring machinery standing in for the Python `in` operator and
`str.startswith`-style checks used by the sources. -/

/-- Does the first character list begin with the second one? -/
def charsStart : List Char → List Char → Bool
  | _, [] => true
  | [], _ :: _ => false
  | a :: as, b :: bs => a == b && charsStart as bs

/-- Does the first character list contain the second as a contiguous run? -/
def charsHave (pat : List Char) : List Char → Bool
  | [] => pat.isEmpty
  | h :: t => charsStart (h :: t) pat || charsHave pat t

/-- `strStarts s pat` is true when `s` begins with `pat`. -/
def strStarts (s pat : String) : Bool := charsStart s.data pat.data

/-- `strHas s pat` models the Python membership test `pat in s`. -/
def strHas (s pat : String) : Bool := charsHave pat.data s.data

/-- ASCII lower-casing of one character, as `str.lower()` acts on the
alphabet relevant here. -/
def charLower (c : Char) : Char :=
  if 'A' ≤ c ∧ c ≤ 'Z' then Char.ofNat (c.toNat + 32) else c

/-- `strLower` models `str.lower()` (the scanned phrases are ASCII). -/
def strLower (s : String) : String := ⟨s.data.map charLower⟩

/-! ## Timeline ledger of the database-configured agent

From backend/app/services/agent_executor.py.  `AgentTimelineEntry` rows are
created only by `DatabaseSREAgent._add_timeline_entry`, which increments the
per-agent `step_counter` and stamps the new row with it.  A fresh agent
(`step_counter = 0`, used for exactly one execution, see
`execute_agent_for_incident`) is modelled by `initialAgentState`. -/

/-- One `AgentTimelineEntry` row, restricted to the fields
`_add_timeline_entry` writes (result backfill fields are not needed here). -/
structure AgentTimelineEntry where
  step_number : Nat
  action_type : String
  title : String
  description : Option String
  command : Option String
  target_host : Option String
  deriving Repr, DecidableEq

/-- The mutable per-agent state used by `_add_timeline_entry`:
`self.step_counter` plus the rows inserted for `self.current_execution`. -/
structure AgentLedgerState where
  step_counter : Nat
  timeline : List AgentTimelineEntry
  deriving Repr, DecidableEq

/-- `DatabaseSREAgent.__init__` sets `step_counter = 0` and the execution has
no timeline rows yet. -/
def initialAgentLedger : AgentLedgerState := ⟨0, []⟩

/-- `DatabaseSREAgent._add_timeline_entry` (agent_executor.py lines 182-200):
increment `self.step_counter`, then insert a row carrying the new counter as
its `step_number`. -/
def add_timeline_entry (st : AgentLedgerState) (action_type title : String)
    (description command target_host : Option String) : AgentLedgerState :=
  let n := st.step_counter + 1
  { step_counter := n
    timeline := st.timeline ++
      [{ step_number := n, action_type := action_type, title := title,
         description := description, command := command,
         target_host := target_host }] }

/-- Payload of one `_add_timeline_entry` call (everything but the state). -/
structure TimelineCall where
  action_type : String
  title : String
  description : Option String
  command : Option String
  target_host : Option String

/-- Folding a sequence of `_add_timeline_entry` calls over a ledger state. -/
def foldTimeline (calls : List TimelineCall) (st : AgentLedgerState) :
    AgentLedgerState :=
  calls.foldl
    (fun st c => add_timeline_entry st c.action_type c.title c.description
      c.command c.target_host)
    st

/-- A run of the agent performs some sequence of `_add_timeline_entry` calls
(from `agent_node`, `_execute_ssh_command_impl` and
`execute_incident_resolution`); the ledger is the fold of those calls. -/
def runTimeline (calls : List TimelineCall) : AgentLedgerState :=
  foldTimeline calls initialAgentLedger

/-! ## The reasoning-loop decision functions and drivers

From `DatabaseSREAgent.should_continue` (agent_executor.py lines 343-366),
`SREAgent.should_continue` (self_healing_sre_agent.py lines 648-659), and the
event loop of `DatabaseSREAgent.execute_incident_resolution`
(agent_executor.py lines 445-460). -/

/-- The completion phrases scanned by `DatabaseSREAgent.should_continue`. -/
def completion_indicators : List String :=
  ["incident resolved", "resolution completed", "task completed",
   "fix verified", "problem solved", "issue resolved"]

/-- `any(indicator in content for indicator in completion_indicators)` applied
to the lower-cased message content. -/
def hasCompletionIndicator (content : String) : Bool :=
  completion_indicators.any (fun ind => strHas (strLower content) ind)

/-- `DatabaseSREAgent.should_continue`: tool calls always route to the
executor; otherwise a completion phrase ends the run; otherwise the run loops
back to the agent while `step_counter < 20` and ends once it reaches 20. -/
def db_should_continue (hasToolCalls : Bool) (content : String)
    (step_counter : Nat) : String :=
  if hasToolCalls then "executor"
  else if hasCompletionIndicator content then "end"
  else if step_counter < 20 then "agent"
  else "end"

/-- `SREAgent.should_continue` (self_healing_sre_agent.py): tool calls route
to the executor and anything else ends the run; there is no step ceiling. -/
def sh_should_continue (hasToolCalls : Bool) : String :=
  if hasToolCalls then "executor" else "end"

/-- Workflow node currently executing (the compiled LangGraph graph has the
nodes `agent` and `executor`; `terminal` stands for `__end__`). -/
inductive LoopNode
  | agent
  | executor
  | terminal
  deriving Repr, DecidableEq

/-- State of the database agent workflow: the current node, the number of
oracle turns taken so far, and the timeline `step_counter` (incremented once
per `agent_node` and once per executed SSH command). -/
structure LoopState where
  node : LoopNode
  turn : Nat
  step_counter : Nat
  deriving Repr, DecidableEq

/-- One super-step of the database agent workflow, driven by an oracle that
for each agent turn yields whether the response carries tool calls and its
text content.  `agent_node` logs an analysis entry (raising `step_counter`)
and routes via `db_should_continue`; `executor_node` runs the tool call
(logging a command entry) and unconditionally returns to the agent. -/
def dbLoopStep (oracle : Nat → Bool × String) : LoopState → LoopState
  | ⟨LoopNode.agent, turn, sc⟩ =>
      let r := oracle turn
      let sc' := sc + 1
      match db_should_continue r.1 r.2 sc' with
      | "executor" => ⟨LoopNode.executor, turn + 1, sc'⟩
      | "agent" => ⟨LoopNode.agent, turn + 1, sc'⟩
      | _ => ⟨LoopNode.terminal, turn + 1, sc'⟩
  | ⟨LoopNode.executor, turn, sc⟩ => ⟨LoopNode.agent, turn, sc + 1⟩
  | ⟨LoopNode.terminal, turn, sc⟩ => ⟨LoopNode.terminal, turn, sc⟩

/-- The workflow entered at the `agent` node. -/
def initialLoopState : LoopState := ⟨LoopNode.agent, 0, 0⟩

/-- The loop state after `n` super-steps under the given oracle. -/
def runLoop (oracle : Nat → Bool × String) (n : Nat) : LoopState :=
  Nat.iterate (dbLoopStep oracle) n initialLoopState

/-- The event loop of `execute_incident_resolution` (agent_executor.py lines
445-460): consume workflow stream events, incrementing `step_count`, and break
out of the loop as soon as `step_count > 50`.  `stream n` tells whether the
workflow still yields an event at index `n`; the function returns the final
`step_count`.  The loop terminates because `step_count` grows by one per
iteration and the source breaks once it exceeds 50. -/
def driverLoop (stream : Nat → Bool) (step_count : Nat) : Nat :=
  if stream step_count = false then step_count
  else
    let c := step_count + 1
    if 50 < c then c else driverLoop stream c
  termination_by 51 - step_count
  decreasing_by omega

/-- Number of stream events `execute_incident_resolution` consumes. -/
def driverSteps (stream : Nat → Bool) : Nat := driverLoop stream 0

/-! ## Execution finalisation of the database-configured agent

From `DatabaseSREAgent.execute_incident_resolution` (agent_executor.py lines
419-498) together with `create_execution` (lines 395-417). -/

/-- The `AgentExecution` row fields written by `create_execution` and
`execute_incident_resolution` (model agent_execution.py). -/
structure AgentExecution where
  status : String
  final_status : Option String
  summary : Option String
  error_message : Option String
  started_at : Nat
  completed_at : Option Nat
  progress_percentage : Nat
  deriving Repr, DecidableEq

/-- `create_execution`: the fresh row starts in status `running` with no
completion data. -/
def create_execution (now : Nat) : AgentExecution :=
  { status := "running", final_status := none, summary := none,
    error_message := none, started_at := now, completed_at := none,
    progress_percentage := 0 }

/-- Observable outcome of the workflow run inside
`execute_incident_resolution`: either the event loop finishes (carrying the
final message contents it saw) or an exception escapes with a message. -/
inductive RunOutcome
  | ok (finalMessages : List String)
  | err (msg : String)
  deriving Repr, DecidableEq

/-- `DatabaseSREAgent.execute_incident_resolution`: on normal completion the
execution is marked `completed`/`success` with `completed_at` set, progress
100 and the last message (truncated to 1000 characters) as summary; on any
exception the `except` block (lines 489-498) marks it `failed`/`failure`,
records `str(e)` in `error_message` and sets `completed_at`, then re-raises. -/
def execute_incident_resolution (outcome : RunOutcome) (startTime endTime : Nat) :
    AgentExecution :=
  let execution := create_execution startTime
  match outcome with
  | RunOutcome.ok finalMessages =>
      { execution with
        status := "completed", final_status := some "success",
        completed_at := some endTime, progress_percentage := 100,
        summary := (finalMessages.getLast?).map (fun m => m.take 1000) }
  | RunOutcome.err msg =>
      { execution with
        status := "failed", final_status := some "failure",
        error_message := some msg, completed_at := some endTime }

/-! ## Remote command execution tools

Two `execute_ssh_command` implementations are embedded:
- the module-level tool of self_healing_sre_agent.py (lines 313-380), called
  the service tool below, and
- the tool defined inside `process_incident_with_agent` of sre_agent_bkp.py
  (lines 498-551), called the backup tool below.

Both are modelled as total functions producing the returned string together
with a flag telling whether `client.connect` was reached; the behaviour of
the remote side is an explicit `SSHOutcome` parameter. -/

/-- The relevant configuration (app/core/config.py): `SSH_USERNAME` (empty
string when falsy), `SSH_PRIVATE_KEY_PATH` (empty string when unset) and
`ENABLE_REAL_SSH`. -/
structure SSHSettings where
  ssh_username : String
  ssh_key_path : String
  enable_real_ssh : Bool
  deriving Repr, DecidableEq

/-- What the connection attempt would produce: a finished command with
stdout/stderr/exit status, or one of the exception classes the sources catch
(`paramiko.AuthenticationException`, `paramiko.SSHException`, a connect
timeout, or any other exception). -/
inductive SSHOutcome
  | ok (stdout stderr : String) (exit_status : Int)
  | authFailure (msg : String)
  | sshError (msg : String)
  | timeout (msg : String)
  | otherError (msg : String)
  deriving Repr, DecidableEq

/-- The non-`ok` outcomes, i.e. the cases where `exec_command` did not run to
completion. -/
def SSHOutcome.isErr : SSHOutcome → Bool
  | SSHOutcome.ok _ _ _ => false
  | _ => true

/-- The shared output formatting of both tools:
STDOUT/STDERR sections when non-empty, then the exit status; the
`no output` fallback of the sources is dead code because the exit-status line
is always appended. -/
def formatSshOutput (stdout stderr : String) (exit_status : Int) : String :=
  let result := ""
  let result := if stdout ≠ "" then result ++ "STDOUT:\n" ++ stdout ++ "\n" else result
  let result := if stderr ≠ "" then result ++ "STDERR:\n" ++ stderr ++ "\n" else result
  let result := result ++ "EXIT_STATUS: " ++ toString exit_status
  if result = "" then "Command executed successfully (no output)" else result

/-- Result of one tool invocation: the returned text and whether a network
connection attempt (`client.connect`) was made. -/
structure SSHResult where
  output : String
  attempted_connection : Bool
  deriving Repr, DecidableEq

/-- The service tool, self_healing_sre_agent.py lines 313-380.  Missing
username or key path short-circuits with a configuration error; a missing key
file short-circuits with a key-not-found error; otherwise the connection is
attempted and every exception class is caught and rendered as `ERROR:` text.
`keyFileExists` models `os.path.exists(ssh_key_path)`. -/
def execute_ssh_command_service (s : SSHSettings) (keyFileExists : Bool)
    (ip_address command : String) (outcome : SSHOutcome) : SSHResult :=
  if s.ssh_username = "" ∨ s.ssh_key_path = "" then
    { output := "ERROR: SSH_USERNAME or SSH_PRIVATE_KEY_PATH not configured in environment",
      attempted_connection := false }
  else if keyFileExists = false then
    { output := "ERROR: SSH key file not found at " ++ s.ssh_key_path,
      attempted_connection := false }
  else
    match outcome with
    | SSHOutcome.ok stdout stderr code =>
        { output := formatSshOutput stdout stderr code, attempted_connection := true }
    | SSHOutcome.authFailure _ =>
        { output := "ERROR: Authentication failed for " ++ s.ssh_username ++ "@" ++ ip_address,
          attempted_connection := true }
    | SSHOutcome.sshError msg =>
        { output := "ERROR: SSH connection failed: " ++ msg, attempted_connection := true }
    | SSHOutcome.timeout msg =>
        { output := "ERROR: Unexpected error: " ++ msg, attempted_connection := true }
    | SSHOutcome.otherError msg =>
        { output := "ERROR: Unexpected error: " ++ msg, attempted_connection := true }

/-- The backup tool, sre_agent_bkp.py lines 498-551.  If no key path is
configured or the key file is absent it returns a simulated success message;
if `ENABLE_REAL_SSH` is off it returns a different simulated success message;
only otherwise is the connection attempted, with every exception rendered as
`ERROR: SSH execution failed: ...`.  The username is never validated. -/
def execute_ssh_command_bkp (s : SSHSettings) (keyFileExists : Bool)
    (ip_address command : String) (outcome : SSHOutcome) : SSHResult :=
  if s.ssh_key_path = "" ∨ keyFileExists = false then
    { output := "Command \x27" ++ command ++
        "\x27 executed successfully (simulated - no SSH key configured)",
      attempted_connection := false }
  else if s.enable_real_ssh = false then
    { output := "Command \x27" ++ command ++
        "\x27 executed successfully (simulated - ENABLE_REAL_SSH=False)",
      attempted_connection := false }
  else
    match outcome with
    | SSHOutcome.ok stdout stderr code =>
        { output := formatSshOutput stdout stderr code, attempted_connection := true }
    | SSHOutcome.authFailure msg =>
        { output := "ERROR: SSH execution failed: " ++ msg, attempted_connection := true }
    | SSHOutcome.sshError msg =>
        { output := "ERROR: SSH execution failed: " ++ msg, attempted_connection := true }
    | SSHOutcome.timeout msg =>
        { output := "ERROR: SSH execution failed: " ++ msg, attempted_connection := true }
    | SSHOutcome.otherError msg =>
        { output := "ERROR: SSH execution failed: " ++ msg, attempted_connection := true }

/-! ## The SRE execution ledger rows and the two trigger endpoints

The `SREIncidentExecution` table is declared in
alembic/versions/add_sre_execution_tables.py (with a unique constraint on
`incident_number`); the rows are manipulated by
`trigger_sre_agent`/`process_incident_with_agent` of sre_agent_bkp.py and
read by sre_execution_service.py.  The active endpoint sre_agent.py performs
no ledger operations at trigger time. -/

/-- One `sre_incident_execution` row (fields used by the embedded code). -/
structure SREIncidentExecution where
  id : Nat
  incident_number : String
  incident_title : String
  incident_description : String
  target_ip : String
  priority : String
  category : String
  assignment_group : String
  status : String
  agent_name : String
  started_at : Nat
  completed_at : Option Nat
  resolution_summary : Option String
  final_hypothesis : Option String
  servicenow_payload : Option String
  deriving Repr, DecidableEq

/-- The normalised incident record of the trigger payload (`result[0]`). -/
structure IncidentData where
  number : String
  short_description : String
  description : String
  u_ip_address : String
  priority : String
  category : String
  assignment_group : String
  deriving Repr, DecidableEq

/-- The `SREAgentTriggerResponse` body. -/
structure TriggerResponse where
  message : String
  incident_number : String
  status : String
  execution_id : Nat
  dashboard_url : String
  deriving Repr, DecidableEq

/-- `scalar_one_or_none` over `where incident_number == n`: the first row with
the given incident number (the table holds at most one). -/
def findByIncidentNumber (db : List SREIncidentExecution) (n : String) :
    Option SREIncidentExecution :=
  db.find? (fun e => e.incident_number == n)

/-- Mutating the row an ORM query returned: replace the first row with the
given incident number. -/
def updateFirst (n : String) (f : SREIncidentExecution → SREIncidentExecution) :
    List SREIncidentExecution → List SREIncidentExecution
  | [] => []
  | e :: rest =>
      if e.incident_number == n then f e :: rest else e :: updateFirst n f rest

/-- The in-place reset of sre_agent_bkp.py lines 128-134: back to `initiated`
with the completion fields cleared and the fresh payload stored. -/
def reset_execution (payloadText : String) (e : SREIncidentExecution) :
    SREIncidentExecution :=
  { e with
    status := "initiated", agent_name := "SelfHealingSRE-v1.0",
    completed_at := none, resolution_summary := none, final_hypothesis := none,
    servicenow_payload := some payloadText }

/-- `trigger_sre_agent` of sre_agent_bkp.py (lines 74-204).  Empty payload or
missing incident number raise HTTP 400 (the `Except.error` case).  Otherwise:
an existing `running`/`initiated` row is returned untouched without enqueuing
a task; an existing terminal row is reset in place and a task is enqueued; no
existing row leads to inserting a fresh `initiated` row and enqueuing a task.
The `Bool` in the result tells whether a background task was enqueued. -/
def trigger_sre_agent_bkp (db : List SREIncidentExecution)
    (payloadResult : List IncidentData) (payloadText : String)
    (newId : Nat) (now : Nat) :
    Except Nat (List SREIncidentExecution × TriggerResponse × Bool) :=
  match payloadResult with
  | [] => Except.error 400
  | incident_data :: _ =>
    let incident_number := incident_data.number
    if incident_number = "" then Except.error 400
    else
      match findByIncidentNumber db incident_number with
      | some existing =>
          if ["running", "initiated"].contains existing.status then
            Except.ok (db,
              { message := "SRE agent already processing this incident",
                incident_number := incident_number,
                status := existing.status,
                execution_id := existing.id,
                dashboard_url := "/dashboard/incident/" ++ incident_number },
              false)
          else
            Except.ok (updateFirst incident_number (reset_execution payloadText) db,
              { message := "SRE agent triggered successfully (reprocessing)",
                incident_number := incident_number,
                status := "initiated",
                execution_id := existing.id,
                dashboard_url := "/dashboard/incident/" ++ incident_number },
              true)
      | none =>
          Except.ok (db ++
            [{ id := newId,
               incident_number := incident_number,
               incident_title := incident_data.short_description,
               incident_description := incident_data.description,
               target_ip := incident_data.u_ip_address,
               priority := incident_data.priority,
               category := incident_data.category,
               assignment_group := incident_data.assignment_group,
               status := "initiated",
               agent_name := "SelfHealingSRE-v1.0",
               started_at := now,
               completed_at := none,
               resolution_summary := none,
               final_hypothesis := none,
               servicenow_payload := some payloadText }],
            { message := "SRE agent triggered successfully",
              incident_number := incident_number,
              status := "initiated",
              execution_id := newId,
              dashboard_url := "/dashboard/incident/" ++ incident_number },
            true)

/-- `trigger_sre_agent` of sre_agent.py (lines 76-133).  It parses the
payload, enqueues the background task and returns immediately; it performs no
ledger operation, always answers status `initiated`, and hard-codes
`execution_id = 0` (the source comment: will be set by the background agent).
`payloadNumber` is `incident_data.get("number")`; when absent the fallback is
`INC` followed by the epoch timestamp. -/
def trigger_sre_agent_active (db : List SREIncidentExecution)
    (payloadNumber : Option String) (timestamp : Nat) :
    List SREIncidentExecution × TriggerResponse :=
  let incident_number := payloadNumber.getD ("INC" ++ toString timestamp)
  (db,
   { message := "SRE agent triggered successfully",
     incident_number := incident_number,
     status := "initiated",
     execution_id := 0,
     dashboard_url := "/dashboard/incident/" ++ incident_number })

/-- The failure handler of `process_incident_with_agent` in sre_agent_bkp.py
(lines 656-677): look the execution up by incident number and, when present,
mark it `failed` with `completed_at` set. -/
def bkp_mark_failed (db : List SREIncidentExecution) (incident_number : String)
    (now : Nat) : List SREIncidentExecution :=
  match findByIncidentNumber db incident_number with
  | some _ => updateFirst incident_number
      (fun e => { e with status := "failed", completed_at := some now }) db
  | none => db

/-! ## Ticket closure tools

Two implementations are embedded: the module-level
`close_servicenow_incident` of self_healing_sre_agent.py (lines 383-508),
which performs the real ServiceNow lookup/update, and the tool of the same
name defined inside `process_incident_with_agent` of sre_agent_bkp.py (lines
553-568), which contacts no ticketing system at all. -/

/-- ServiceNow settings (app/core/config.py); empty string models an unset
optional value, matching `if not all([...])`. -/
structure SNowSettings where
  instance_url : String
  username : String
  password : String
  deriving Repr, DecidableEq

/-- What the ServiceNow REST interaction yields: a transport error, a non-200
search response, a 200 search response with an empty result list, or a found
ticket together with the outcome of the follow-up update request. -/
inductive SNowLookup
  | netError (msg : String)
  | searchHttpError (code : Nat) (body : String)
  | notFound
  | found (sys_id : String) (updateCode : Nat) (updateErrorDetails : String)
  deriving Repr, DecidableEq

/-- The module-level `close_servicenow_incident` of self_healing_sre_agent.py.
Missing credentials short-circuit; a failed search, a missing ticket, a failed
update and a transport error each return their own `ERROR:` text; only a 200
update response produces the success report.  The function has no access to
any ledger row. -/
def close_servicenow_incident_service (s : SNowSettings)
    (incident_number resolution_summary close_code : String)
    (lookup : SNowLookup) : String :=
  if s.instance_url = "" ∨ s.username = "" ∨ s.password = "" then
    "ERROR: ServiceNow credentials not configured. Please set SERVICENOW_INSTANCE_URL, SERVICENOW_USERNAME, and SERVICENOW_PASSWORD in environment"
  else
    match lookup with
    | SNowLookup.netError msg =>
        "ERROR: Network error connecting to ServiceNow: " ++ msg
    | SNowLookup.searchHttpError code body =>
        "ERROR: Failed to find incident " ++ incident_number ++ ". HTTP " ++
          toString code ++ ": " ++ body
    | SNowLookup.notFound =>
        "ERROR: Incident " ++ incident_number ++ " not found in ServiceNow"
    | SNowLookup.found sys_id updateCode updateErrorDetails =>
        if updateCode = 200 then
          "\n✅ SERVICENOW INCIDENT CLOSED SUCCESSFULLY\n\nIncident Number: " ++
            incident_number ++ "\nIncident Sys ID: " ++ sys_id ++
            "\nStatus: RESOLVED (State 6)\nResolution Code: " ++ close_code ++
            "\nResolved By: " ++ s.username ++ "\n\nRESOLUTION SUMMARY:\n" ++
            resolution_summary ++
            "\n\nServiceNow Response: Incident successfully updated and closed.\n"
        else
          "ERROR: Failed to close incident " ++ incident_number ++ ". \nHTTP " ++
            toString updateCode ++ ": " ++ updateErrorDetails ++
            "\n\nPossible solutions:\n1. Check if \x27resolution_code\x27 field exists in your ServiceNow instance\n2. Verify the resolution code value \x27" ++
            close_code ++
            "\x27 is valid\n3. Check if additional mandatory fields are required for closure\n4. Ensure the user has permissions to close incidents\n\nYou may need to check your ServiceNow instance configuration for required closure fields."

/-- The service close tool paired with an arbitrary ledger row, making
explicit that invoking it leaves every execution untouched (the source
function body never references an execution). -/
def close_servicenow_incident_service_on (e : SREIncidentExecution)
    (s : SNowSettings) (incident_number resolution_summary close_code : String)
    (lookup : SNowLookup) : String × SREIncidentExecution :=
  (close_servicenow_incident_service s incident_number resolution_summary
    close_code lookup, e)

/-- The inner `close_servicenow_incident` of sre_agent_bkp.py (lines
553-568): it performs no ServiceNow call at all (the `ticketExists` argument
models whether the number exists in the ticketing system and is deliberately
unread, as in the source), unconditionally marks the captured execution row
`completed` with `completed_at` and the summary set, and returns a success
message. -/
def close_servicenow_incident_bkp (execution : SREIncidentExecution)
    (incident_number resolution_summary : String) (now : Nat)
    (ticketExists : Bool) : String × SREIncidentExecution :=
  ("SUCCESS: Incident " ++ incident_number ++
     " has been successfully closed with resolution: " ++ resolution_summary,
   { execution with
     status := "completed", completed_at := some now,
     resolution_summary := some resolution_summary })

/-! ## Query-service progress

From `SREExecutionService.get_sre_execution_summary`
(sre_execution_service.py lines 225-231); the identical formula appears in
`get_sre_execution_by_incident_number` (lines 105-111). -/

/-- One `sre_timeline_entry` row as the query service reads it. -/
structure SRETimelineRow where
  step_number : Nat
  status : String
  title : String
  deriving Repr, DecidableEq

/-- `progress = (completed_steps / max(total_steps, 1)) * 100`. -/
def get_sre_execution_summary_progress
    (timeline_entries : List SRETimelineRow) : ℚ :=
  let total_steps := timeline_entries.length
  let completed_steps :=
    (timeline_entries.filter (fun e => e.status == "completed")).length
  ((completed_steps : ℚ) / ((max total_steps 1 : Nat) : ℚ)) * 100

/-! ## Tool-execution fan-out of the executor nodes

From `DatabaseSREAgent.executor_node` (agent_executor.py lines 317-341) and
`SREAgent.executor_node` (self_healing_sre_agent.py lines 628-646). -/

/-- One tool call of an oracle response. -/
structure OracleToolCall where
  name : String
  ip_address : String
  command : String
  deriving Repr, DecidableEq

/-- `DatabaseSREAgent.executor_node`: iterate over every tool call of the
last message; each call named `execute_ssh_command` is executed and its
result appended as a tool response; calls with any other name are skipped
silently.  No call is dropped for being a duplicate and nothing is logged as
an anomaly. -/
def db_executor_node (runSsh : String → String → String)
    (tool_calls : List OracleToolCall) : List String :=
  (tool_calls.filter (fun c => c.name == "execute_ssh_command")).map
    (fun c => runSsh c.ip_address c.command)

/-- `SREAgent.executor_node` delegates to the prebuilt `ToolNode`, which
executes every tool call of the last message and returns one tool message per
call. -/
def sh_executor_node (runTool : OracleToolCall → String)
    (tool_calls : List OracleToolCall) : List String :=
  tool_calls.map runTool

/-! ## Helper lemmas -/

/-- Appending on the right cannot destroy a list prefix. -/
lemma charsStart_of_append {p a : List Char} (t : List Char)
    (h : charsStart a p = true) : charsStart (a ++ t) p = true := by
  induction p generalizing a with
  | nil => simp [charsStart]
  | cons b bs ih =>
      cases a with
      | nil => simp [charsStart] at h
      | cons x xs =>
          simp only [List.cons_append, charsStart, Bool.and_eq_true] at h ⊢
          exact ⟨h.1, ih h.2⟩

/-- `strStarts` is stable under appending further text. -/
lemma strStarts_append (a t pat : String) (h : strStarts a pat = true) :
    strStarts (a ++ t) pat = true := by
  unfold strStarts at h ⊢
  rw [String.data_append]
  exact charsStart_of_append t.data h

/-- A contiguous run in the right half survives prepending text. -/
lemma charsHave_append_left {pat y : List Char} (x : List Char)
    (h : charsHave pat y = true) : charsHave pat (x ++ y) = true := by
  induction x with
  | nil => simpa using h
  | cons c cs ih =>
      simp only [List.cons_append, charsHave, Bool.or_eq_true]
      exact Or.inr ih

/-- `strHas` is stable under prepending further text. -/
lemma strHas_append (a b pat : String) (h : strHas b pat = true) :
    strHas (a ++ b) pat = true := by
  unfold strHas at h ⊢
  rw [String.data_append]
  exact charsHave_append_left a.data h

/-- `updateFirst` never changes the number of rows. -/
lemma updateFirst_length (n : String)
    (f : SREIncidentExecution → SREIncidentExecution) :
    ∀ db : List SREIncidentExecution, (updateFirst n f db).length = db.length := by
  intro db
  induction db with
  | nil => rfl
  | cons e rest ih =>
      by_cases h : (e.incident_number == n) = true
      · simp [updateFirst, h]
      · simp [updateFirst, h, ih]

/-- If the update function keeps the incident number, looking the incident up
after `updateFirst` yields the updated row. -/
lemma findByIncidentNumber_updateFirst (n : String)
    (f : SREIncidentExecution → SREIncidentExecution)
    (hf : ∀ x, (f x).incident_number = x.incident_number) :
    ∀ (db : List SREIncidentExecution) (e : SREIncidentExecution),
      findByIncidentNumber db n = some e →
      findByIncidentNumber (updateFirst n f db) n = some (f e) := by
  intro db
  induction db with
  | nil => intro e h; simp [findByIncidentNumber] at h
  | cons x rest ih =>
      intro e h
      by_cases hx : (x.incident_number == n) = true
      · rw [findByIncidentNumber, List.find?_cons_of_pos rest hx] at h
        cases h
        rw [updateFirst, if_pos hx, findByIncidentNumber]
        have hfx : ((f x).incident_number == n) = true := by
          rw [hf]; exact hx
        simp [List.find?_cons, hfx]
      · rw [findByIncidentNumber, List.find?_cons_of_neg rest hx] at h
        rw [updateFirst, if_neg hx, findByIncidentNumber]
        simp only [List.find?_cons, hx, cond_false]
        exact ih e h

/-- If the update function keeps the incident number, `updateFirst` preserves
per-incident row counts. -/
lemma countP_updateFirst (n m : String)
    (f : SREIncidentExecution → SREIncidentExecution)
    (hf : ∀ x, (f x).incident_number = x.incident_number) :
    ∀ db : List SREIncidentExecution,
      (updateFirst n f db).countP (fun e => e.incident_number == m) =
        db.countP (fun e => e.incident_number == m) := by
  intro db
  induction db with
  | nil => rfl
  | cons x rest ih =>
      by_cases hx : (x.incident_number == n) = true
      · simp [updateFirst, hx, List.countP_cons, hf, ih]
      · simp [updateFirst, hx, List.countP_cons, ih]

/-- A failed lookup means no row carries that incident number. -/
lemma countP_eq_zero_of_find?_eq_none (db : List SREIncidentExecution)
    (n : String) (h : findByIncidentNumber db n = none) :
    db.countP (fun e => e.incident_number == n) = 0 := by
  rw [findByIncidentNumber, List.find?_eq_none] at h
  rw [List.countP_eq_zero]
  intro a ha
  exact h a ha

/-- The event loop of `execute_incident_resolution` consumes at most 51
events: `step_count` rises by one per iteration and the loop breaks as soon
as it exceeds 50. -/
lemma driverLoop_le (stream : Nat → Bool) :
    ∀ k c, 51 - c ≤ k → c ≤ 50 → driverLoop stream c ≤ 51 := by
  intro k
  induction k with
  | zero => intro c hk hc; omega
  | succ m ih =>
      intro c hk hc
      rw [driverLoop]
      by_cases hs : stream c = false
      · rw [if_pos hs]; omega
      · rw [if_neg hs]
        by_cases h50 : 50 < c + 1
        · simp only [h50, if_true]; omega
        · simp only [h50, if_false]
          exact ih (c + 1) (by omega) (by omega)

/-- Invariant of the timeline ledger: the step counter tracks the row count
and the recorded step numbers are exactly `1, 2, ..., length`. -/
lemma foldTimeline_inv (calls : List TimelineCall) :
    ∀ st : AgentLedgerState, st.step_counter = st.timeline.length →
      st.timeline.map (fun e => e.step_number) =
        List.range' 1 st.timeline.length →
      (foldTimeline calls st).step_counter =
          (foldTimeline calls st).timeline.length ∧
        (foldTimeline calls st).timeline.map (fun e => e.step_number) =
          List.range' 1 (foldTimeline calls st).timeline.length := by
  induction calls with
  | nil => intro st h1 h2; exact ⟨h1, h2⟩
  | cons c cs ih =>
      intro st h1 h2
      have hstep : (add_timeline_entry st c.action_type c.title c.description
          c.command c.target_host).step_counter =
          (add_timeline_entry st c.action_type c.title c.description
            c.command c.target_host).timeline.length := by
        simp [add_timeline_entry, h1]
      have hmap : (add_timeline_entry st c.action_type c.title c.description
          c.command c.target_host).timeline.map (fun e => e.step_number) =
          List.range' 1 (add_timeline_entry st c.action_type c.title
            c.description c.command c.target_host).timeline.length := by
        have hconcat : List.range' 1 (st.timeline.length + 1) 1 =
            List.range' 1 st.timeline.length 1 ++ [1 + 1 * st.timeline.length] :=
          List.range'_concat 1 st.timeline.length
        simp only [one_mul] at hconcat
        simp [add_timeline_entry, h1, h2, hconcat]
        omega
      exact ih _ hstep hmap

/-! ## Concrete fixtures

Sample rows and payloads (taken from the `test-trigger` sample data of the
endpoints) used by counterexamples and witnesses. -/

/-- A non-terminal (`running`) ledger row. -/
def runningExecutionRow : SREIncidentExecution :=
  { id := 7, incident_number := "INC0000060",
    incident_title := "Tomcat service down on production server",
    incident_description := "Tomcat web service is not responding on the production server.",
    target_ip := "13.60.250.208", priority := "2", category := "software",
    assignment_group := "287ebd7da9fe198100f92cc8d1d2154e",
    status := "running", agent_name := "SelfHealingSRE-v1.0",
    started_at := 100, completed_at := none, resolution_summary := none,
    final_hypothesis := none, servicenow_payload := none }

/-- A terminal (`completed`) ledger row for the same incident. -/
def completedExecutionRow : SREIncidentExecution :=
  { runningExecutionRow with
    status := "completed", completed_at := some 200,
    resolution_summary := some "Restarted tomcat",
    final_hypothesis := some "Tomcat service had crashed" }

/-- The sample ServiceNow incident of the `test-trigger` endpoints. -/
def sampleIncident : IncidentData :=
  { number := "INC0000060",
    short_description := "Tomcat service down on production server",
    description := "Tomcat web service is not responding on the production server. Users cannot access the application.",
    u_ip_address := "13.60.250.208", priority := "2", category := "software",
    assignment_group := "287ebd7da9fe198100f92cc8d1d2154e" }

/-! ## Claim C7 -/

/-- C7 (confirmed): within one execution, every timeline row is created by
`_add_timeline_entry`, and after any sequence of REASON/ACT calls the
recorded step numbers are exactly `1, 2, ..., n` — starting at 1, strictly
increasing and gap-free. -/
theorem timeline_step_numbers_contiguous (calls : List TimelineCall) :
    (runTimeline calls).timeline.map (fun e => e.step_number) =
      List.range' 1 (runTimeline calls).timeline.length :=
  (foldTimeline_inv calls initialAgentLedger rfl rfl).2

/-! ## Claim C2 -/

set_option maxRecDepth 10000 in
/-- C2 counterexample: under an oracle that keeps requesting tool calls, the
database agent workflow is still live after 60 REASON/ACT cycles (120
super-steps, step counter 120), and `should_continue` routes a tool-call turn
to the executor even with the counter beyond any 20-50 ceiling; the
self-healing decision function likewise never ends a tool-call turn.  So
exceeding the step ceiling does not make the loop terminal. -/
theorem reasoning_loop_ceiling_cex :
    (runLoop (fun _ => (true, "")) 120).node = LoopNode.agent ∧
    60 ≤ (runLoop (fun _ => (true, "")) 120).step_counter ∧
    db_should_continue true "" 51 = "executor" ∧
    sh_should_continue true = "executor" := by decide

/-- C2 (amended): the 20-step ceiling of `DatabaseSREAgent.should_continue`
ends the run only on a turn with no tool call and no completion phrase;
turns with tool calls always proceed to the executor regardless of the
counter; and a run of `execute_incident_resolution` is instead bounded by
its event loop, which consumes at most 51 workflow events before breaking
out. -/
theorem reasoning_loop_bounds (content : String) (sc : Nat)
    (stream : Nat → Bool) :
    db_should_continue true content sc = "executor" ∧
    (hasCompletionIndicator content = false → 20 ≤ sc →
      db_should_continue false content sc = "end") ∧
    driverSteps stream ≤ 51 := by
  refine ⟨rfl, ?_, driverLoop_le stream 51 0 (by omega) (by omega)⟩
  intro h1 h2
  rw [db_should_continue, if_neg (by simp), if_neg (by simp [h1]),
    if_neg (by omega)]

/-- Witness for the amended C2 theorem at concrete inputs. -/
theorem reasoning_loop_bounds_witness :
    db_should_continue false "investigating disk usage" 25 = "end" ∧
    driverSteps (fun _ => true) ≤ 51 := by
  refine ⟨?_, (reasoning_loop_bounds "" 0 (fun _ => true)).2.2⟩
  exact (reasoning_loop_bounds "investigating disk usage" 25
    (fun _ => true)).2.1 (by decide) (by omega)

/-! ## Claim C3 -/

/-- C3 (confirmed): `execute_incident_resolution` never ends with the
execution in status `running`: a normal run marks it `completed` and the
`except` handler marks any escaped exception `failed` with `completed_at`
set and the message recorded in `error_message`; the failure handler of the
backup endpoint likewise marks the looked-up row `failed` with
`completed_at` set. -/
theorem execution_never_left_running (outcome : RunOutcome) (t0 t1 : Nat)
    (db : List SREIncidentExecution) (n : String) (t2 : Nat) :
    (execute_incident_resolution outcome t0 t1).status ≠ "running" ∧
    ((execute_incident_resolution outcome t0 t1).status = "completed" ∨
      (execute_incident_resolution outcome t0 t1).status = "failed") ∧
    (∀ msg, outcome = RunOutcome.err msg →
      (execute_incident_resolution outcome t0 t1).status = "failed" ∧
      (execute_incident_resolution outcome t0 t1).completed_at = some t1 ∧
      (execute_incident_resolution outcome t0 t1).error_message = some msg) ∧
    (∀ e, findByIncidentNumber db n = some e →
      findByIncidentNumber (bkp_mark_failed db n t2) n =
        some { e with status := "failed", completed_at := some t2 }) := by
  refine ⟨?_, ?_, ?_, ?_⟩
  · cases outcome <;> simp [execute_incident_resolution, create_execution]
  · cases outcome <;> simp [execute_incident_resolution, create_execution]
  · intro msg h
    subst h
    simp [execute_incident_resolution, create_execution]
  · intro e he
    unfold bkp_mark_failed
    rw [he]
    exact findByIncidentNumber_updateFirst n
      (fun x => { x with status := "failed", completed_at := some t2 })
      (fun x => rfl) db e he

/-- Witness for C3 at a concrete failing run and a concrete ledger. -/
theorem execution_never_left_running_witness :
    (execute_incident_resolution (RunOutcome.err "boom") 0 1).status = "failed" ∧
    (execute_incident_resolution (RunOutcome.err "boom") 0 1).error_message =
      some "boom" ∧
    findByIncidentNumber (bkp_mark_failed [runningExecutionRow] "INC0000060" 9)
        "INC0000060" =
      some { runningExecutionRow with
             status := "failed", completed_at := some 9 } := by
  obtain ⟨-, -, h3, h4⟩ := execution_never_left_running (RunOutcome.err "boom")
    0 1 [runningExecutionRow] "INC0000060" 9
  obtain ⟨ha, -, hc⟩ := h3 "boom" rfl
  exact ⟨ha, hc, h4 runningExecutionRow (by decide)⟩

/-! ## Claim C4 -/

/-- C4 counterexample: in the backup endpoint tool a missing key path
short-circuits with a simulated-success message — not a configuration-error
message, and not ERROR:-prefixed — and a missing username does not
short-circuit at all: the connection is still attempted. -/
theorem ssh_tool_config_error_cex :
    (execute_ssh_command_bkp ⟨"ubuntu", "", false⟩ false "13.60.250.208"
        "uptime" (SSHOutcome.ok "up" "" 0)).output =
      "Command \x27uptime\x27 executed successfully (simulated - no SSH key configured)" ∧
    strStarts (execute_ssh_command_bkp ⟨"ubuntu", "", false⟩ false
        "13.60.250.208" "uptime" (SSHOutcome.ok "up" "" 0)).output
      "ERROR:" = false ∧
    (execute_ssh_command_bkp ⟨"", "/home/sre/.ssh/key.pem", true⟩ true
        "13.60.250.208" "uptime"
        (SSHOutcome.authFailure "Authentication failed.")).attempted_connection
      = true := by decide

/-- C4 (amended): the service tool never raises — every outcome is rendered
as a returned string — with every caught exception class (authentication
failure, SSH error, timeout, unexpected error) yielding text beginning with
ERROR:, and a missing username or key path short-circuiting on a
configuration error before any connection attempt.  The backup tool also
renders every exception of an attempted execution as ERROR: text, but a
missing key path short-circuits with a simulated-success message instead of
a configuration error, and the username is never checked. -/
theorem ssh_tool_error_text (s : SSHSettings) (k : Bool) (ip cmd : String)
    (o : SSHOutcome) :
    (o.isErr = true →
      strStarts (execute_ssh_command_service s k ip cmd o).output
        "ERROR:" = true) ∧
    (s.ssh_username = "" ∨ s.ssh_key_path = "" →
      (execute_ssh_command_service s k ip cmd o).attempted_connection = false ∧
      (execute_ssh_command_service s k ip cmd o).output =
        "ERROR: SSH_USERNAME or SSH_PRIVATE_KEY_PATH not configured in environment") ∧
    (o.isErr = true → s.ssh_key_path ≠ "" → k = true →
      s.enable_real_ssh = true →
      strStarts (execute_ssh_command_bkp s k ip cmd o).output
        "ERROR:" = true) := by
  refine ⟨?_, ?_, ?_⟩
  · intro ho
    unfold execute_ssh_command_service
    by_cases h1 : s.ssh_username = "" ∨ s.ssh_key_path = ""
    · rw [if_pos h1]; decide
    · rw [if_neg h1]
      by_cases h2 : k = false
      · rw [if_pos h2]
        exact strStarts_append _ _ _ (by decide)
      · rw [if_neg h2]
        cases o with
        | ok a b c => simp [SSHOutcome.isErr] at ho
        | authFailure m =>
            exact strStarts_append _ _ _ (strStarts_append _ _ _
              (strStarts_append _ _ _ (by decide)))
        | sshError m => exact strStarts_append _ _ _ (by decide)
        | timeout m => exact strStarts_append _ _ _ (by decide)
        | otherError m => exact strStarts_append _ _ _ (by decide)
  · intro h
    unfold execute_ssh_command_service
    rw [if_pos h]
    exact ⟨rfl, rfl⟩
  · intro ho hkey hk hen
    unfold execute_ssh_command_bkp
    rw [if_neg (by simp [hkey, hk]), if_neg (by simp [hen])]
    cases o with
    | ok a b c => simp [SSHOutcome.isErr] at ho
    | authFailure m => exact strStarts_append _ _ _ (by decide)
    | sshError m => exact strStarts_append _ _ _ (by decide)
    | timeout m => exact strStarts_append _ _ _ (by decide)
    | otherError m => exact strStarts_append _ _ _ (by decide)

/-- Witness for the amended C4 theorem at concrete inputs. -/
theorem ssh_tool_error_text_witness :
    strStarts (execute_ssh_command_service
        ⟨"ubuntu", "/home/sre/.ssh/key.pem", true⟩ true "13.60.250.208"
        "uptime" (SSHOutcome.timeout "timed out")).output "ERROR:" = true ∧
    (execute_ssh_command_service ⟨"", "", false⟩ false "13.60.250.208"
        "uptime" (SSHOutcome.ok "" "" 0)).attempted_connection = false ∧
    strStarts (execute_ssh_command_bkp
        ⟨"ubuntu", "/home/sre/.ssh/key.pem", true⟩ true "13.60.250.208"
        "uptime" (SSHOutcome.sshError "connection refused")).output
      "ERROR:" = true := by
  refine ⟨(ssh_tool_error_text _ _ _ _ _).1 (by decide),
    ((ssh_tool_error_text _ _ _ _ _).2.1 (Or.inl rfl)).1,
    (ssh_tool_error_text _ _ _ _ _).2.2 (by decide) (by decide) rfl rfl⟩

/-! ## Claim C5 -/

/-- C5 counterexample: with credentials configured and the key file present,
the service tool attempts a real SSH connection although the configuration
flag disables real SSH — simulation mode is not honored by the tool bound
into the self-healing agent. -/
theorem simulation_flag_ignored_cex :
    (execute_ssh_command_service ⟨"ubuntu", "/home/sre/.ssh/key.pem", false⟩
      true "13.60.250.208" "systemctl status tomcat6"
      (SSHOutcome.ok "active (running)" "" 0)).attempted_connection
      = true := by decide

/-- C5 (amended): the backup endpoint tool honors simulation mode — with the
real-SSH flag off, or no key path configured, or the key file absent, no
connection is attempted and the canned result depends only on the command
(the same string for the same command, whatever the host or the remote
outcome would have been).  The service tool ignores the flag; only missing
credentials make it short-circuit, again deterministically and without any
connection attempt. -/
theorem simulation_mode_deterministic (s : SSHSettings) (k : Bool)
    (ip ip₂ cmd : String) (o o₂ : SSHOutcome) :
    (s.enable_real_ssh = false ∨ s.ssh_key_path = "" ∨ k = false →
      (execute_ssh_command_bkp s k ip cmd o).attempted_connection = false ∧
      execute_ssh_command_bkp s k ip cmd o =
        execute_ssh_command_bkp s k ip₂ cmd o₂) ∧
    (s.ssh_username = "" ∨ s.ssh_key_path = "" →
      (execute_ssh_command_service s k ip cmd o).attempted_connection = false ∧
      execute_ssh_command_service s k ip cmd o =
        execute_ssh_command_service s k ip₂ cmd o₂) := by
  constructor
  · intro h
    unfold execute_ssh_command_bkp
    by_cases h1 : s.ssh_key_path = "" ∨ k = false
    · rw [if_pos h1, if_pos h1]
      exact ⟨rfl, rfl⟩
    · have hf : s.enable_real_ssh = false := by tauto
      rw [if_neg h1, if_neg h1, if_pos hf, if_pos hf]
      exact ⟨rfl, rfl⟩
  · intro h
    unfold execute_ssh_command_service
    rw [if_pos h, if_pos h]
    exact ⟨rfl, rfl⟩

/-- Witness for the amended C5 theorem: flag off, credentials present. -/
theorem simulation_mode_deterministic_witness :
    (execute_ssh_command_bkp ⟨"ubuntu", "/home/sre/.ssh/key.pem", false⟩ true
      "13.60.250.208" "systemctl restart tomcat6"
      (SSHOutcome.ok "x" "" 0)).attempted_connection = false ∧
    execute_ssh_command_bkp ⟨"ubuntu", "/home/sre/.ssh/key.pem", false⟩ true
      "13.60.250.208" "systemctl restart tomcat6" (SSHOutcome.ok "x" "" 0) =
    execute_ssh_command_bkp ⟨"ubuntu", "/home/sre/.ssh/key.pem", false⟩ true
      "10.0.0.9" "systemctl restart tomcat6"
      (SSHOutcome.authFailure "denied") :=
  (simulation_mode_deterministic _ _ _ _ _ _ _).1 (Or.inl rfl)

/-! ## Claim C6 -/

/-- A concrete tool runner recording which call it served. -/
def sampleSshRunner (ip cmd : String) : String := "RAN " ++ ip ++ " " ++ cmd

/-- C6 counterexample: a turn whose oracle response carries two tool calls
has both of them executed — the database executor node returns two tool
responses and the self-healing tool node one response per call; the extra
call is neither ignored nor logged as an anomaly. -/
theorem one_tool_call_per_turn_cex :
    db_executor_node sampleSshRunner
      [⟨"execute_ssh_command", "13.60.250.208", "df -h"⟩,
       ⟨"execute_ssh_command", "13.60.250.208", "free -m"⟩] =
      ["RAN 13.60.250.208 df -h", "RAN 13.60.250.208 free -m"] ∧
    (sh_executor_node (fun c => sampleSshRunner c.ip_address c.command)
      [⟨"execute_ssh_command", "13.60.250.208", "df -h"⟩,
       ⟨"execute_ssh_command", "13.60.250.208", "free -m"⟩]).length = 2 := by
  decide

/-- C6 (amended): one tool call per turn is only a prompt instruction; at
runtime the database executor node executes every call of the turn that is
named execute_ssh_command (silently skipping other names) and the
self-healing executor node executes every call of the turn, with no anomaly
logging and no runtime limit of one call. -/
theorem executor_runs_every_tool_call (f : String → String → String)
    (g : OracleToolCall → String) (tool_calls : List OracleToolCall) :
    (db_executor_node f tool_calls).length =
      (tool_calls.filter (fun c => c.name == "execute_ssh_command")).length ∧
    (sh_executor_node g tool_calls).length = tool_calls.length := by
  constructor <;> simp [db_executor_node, sh_executor_node]

/-! ## Claim C8 -/

/-- C8 counterexample: the backup endpoint close tool never checks ticket
existence — closing a number absent from the ticketing system still returns
a success message and marks the execution row completed. -/
theorem close_nonexistent_ticket_cex :
    strStarts (close_servicenow_incident_bkp runningExecutionRow "INC9999999"
      "restarted the service" 42 false).1 "SUCCESS" = true ∧
    (close_servicenow_incident_bkp runningExecutionRow "INC9999999"
      "restarted the service" 42 false).2.status = "completed" ∧
    (close_servicenow_incident_bkp runningExecutionRow "INC9999999"
      "restarted the service" 42 false).2.completed_at = some 42 := by decide

/-- C8 (amended): with credentials configured, the service close tool
reports a nonexistent ticket as an ERROR: result containing a not-found
message and leaves every ledger row untouched; the backup endpoint inner
close tool, by contrast, performs no existence check and unconditionally
marks its captured execution completed while returning a success message. -/
theorem close_ticket_not_found (sn : SNowSettings) (e : SREIncidentExecution)
    (n summary code : String) (now : Nat) (present : Bool) :
    (sn.instance_url ≠ "" → sn.username ≠ "" → sn.password ≠ "" →
      close_servicenow_incident_service sn n summary code SNowLookup.notFound =
        "ERROR: Incident " ++ n ++ " not found in ServiceNow" ∧
      strHas (close_servicenow_incident_service sn n summary code
        SNowLookup.notFound) "not found" = true ∧
      strStarts (close_servicenow_incident_service sn n summary code
        SNowLookup.notFound) "ERROR:" = true) ∧
    (close_servicenow_incident_service_on e sn n summary code
      SNowLookup.notFound).2 = e ∧
    ((close_servicenow_incident_bkp e n summary now present).2.status =
        "completed" ∧
      strStarts (close_servicenow_incident_bkp e n summary now present).1
        "SUCCESS" = true) := by
  refine ⟨?_, rfl, rfl, ?_⟩
  · intro h1 h2 h3
    unfold close_servicenow_incident_service
    rw [if_neg (by simp [h1, h2, h3])]
    refine ⟨rfl, ?_, ?_⟩
    · exact strHas_append _ _ _ (by decide)
    · exact strStarts_append _ _ _ (strStarts_append _ _ _ (by decide))
  · exact strStarts_append _ _ _ (strStarts_append _ _ _
      (strStarts_append _ _ _ (by decide)))

/-- Witness for the amended C8 theorem at a concrete configuration, ticket
number and ledger row. -/
theorem close_ticket_not_found_witness :
    close_servicenow_incident_service
      ⟨"https://dev.service-now.com", "admin", "secret"⟩ "INC9999999"
      "restarted the service" "Resolved by caller" SNowLookup.notFound =
      "ERROR: Incident INC9999999 not found in ServiceNow" ∧
    (close_servicenow_incident_service_on runningExecutionRow
      ⟨"https://dev.service-now.com", "admin", "secret"⟩ "INC9999999"
      "restarted the service" "Resolved by caller" SNowLookup.notFound).2 =
      runningExecutionRow := by
  obtain ⟨h1, h2, -⟩ := close_ticket_not_found
    ⟨"https://dev.service-now.com", "admin", "secret"⟩ runningExecutionRow
    "INC9999999" "restarted the service" "Resolved by caller" 42 false
  exact ⟨(h1 (by decide) (by decide) (by decide)).1, h2⟩

/-! ## Claim C9 -/

/-- C9 counterexample: one completed timeline entry yields progress 100, not
the fraction 1 — the query service reports a percentage in [0,100], not a
ratio in [0,1]. -/
theorem progress_scale_cex :
    get_sre_execution_summary_progress [⟨1, "completed", "Analyze incident"⟩]
      = 100 ∧
    ¬ get_sre_execution_summary_progress
        [⟨1, "completed", "Analyze incident"⟩] ≤ 1 := by
  constructor <;> norm_num [get_sre_execution_summary_progress]

/-- C9 (amended): progress equals completed divided by max(total, 1), scaled
to percent — it is 0 for an empty timeline (no division by zero) and always
lies within [0, 100]. -/
theorem progress_bounds (timeline_entries : List SRETimelineRow) :
    0 ≤ get_sre_execution_summary_progress timeline_entries ∧
    get_sre_execution_summary_progress timeline_entries ≤ 100 ∧
    (timeline_entries = [] →
      get_sre_execution_summary_progress timeline_entries = 0) := by
  have hform : get_sre_execution_summary_progress timeline_entries =
      (((timeline_entries.filter (fun e => e.status == "completed")).length : ℚ) /
        ((max timeline_entries.length 1 : Nat) : ℚ)) * 100 := rfl
  refine ⟨?_, ?_, ?_⟩
  · rw [hform]; positivity
  · rw [hform]
    have hct : (timeline_entries.filter
        (fun e => e.status == "completed")).length ≤ timeline_entries.length :=
      List.length_filter_le _ _
    have hcm : ((timeline_entries.filter
        (fun e => e.status == "completed")).length : ℚ) ≤
        ((max timeline_entries.length 1 : Nat) : ℚ) := by
      exact_mod_cast le_trans hct (le_max_left _ _)
    have hm : (0:ℚ) < ((max timeline_entries.length 1 : Nat) : ℚ) := by
      exact_mod_cast lt_of_lt_of_le Nat.zero_lt_one (le_max_right _ _)
    have h1 : ((timeline_entries.filter
        (fun e => e.status == "completed")).length : ℚ) /
        ((max timeline_entries.length 1 : Nat) : ℚ) ≤ 1 := by
      rw [div_le_one hm]; exact hcm
    have := mul_le_mul_of_nonneg_right h1 (by norm_num : (0:ℚ) ≤ 100)
    simpa using this
  · intro h
    subst h
    norm_num [hform]

/-- Witness for the amended C9 theorem: empty timeline gives progress 0. -/
theorem progress_bounds_witness :
    get_sre_execution_summary_progress [] = 0 :=
  (progress_bounds []).2.2 rfl

/-! ## Claims C1 and C10 -/

/-- The ledger after a trigger call; an HTTP-400 rejection leaves it as it
was. -/
def triggerResultDb (db : List SREIncidentExecution)
    (res : Except Nat (List SREIncidentExecution × TriggerResponse × Bool)) :
    List SREIncidentExecution :=
  match res with
  | Except.ok (db', _, _) => db'
  | Except.error _ => db

/-- The response body of a successful trigger call. -/
def triggerResponseOf
    (res : Except Nat (List SREIncidentExecution × TriggerResponse × Bool)) :
    Option TriggerResponse :=
  match res with
  | Except.ok (_, r, _) => some r
  | Except.error _ => none

/-- C1 counterexample: triggering an incident whose execution is terminal
through the active endpoint does not reset the row — the ledger is returned
unchanged, status still completed, completed_at and resolution_summary still
set — even though the response claims status initiated. -/
theorem trigger_no_reset_cex :
    (trigger_sre_agent_active [completedExecutionRow] (some "INC0000060")
      1000).1 = [completedExecutionRow] ∧
    completedExecutionRow.status = "completed" ∧
    completedExecutionRow.completed_at = some 200 ∧
    completedExecutionRow.resolution_summary = some "Restarted tomcat" ∧
    (trigger_sre_agent_active [completedExecutionRow] (some "INC0000060")
      1000).2.status = "initiated" := by decide

/-- C1 (amended): the backup trigger maintains at most one execution row per
incident number: an existing running/initiated row is returned untouched —
no second row, no background task; an existing terminal row is reset in
place — completed_at and resolution_summary cleared, status back to
initiated, same id, no insertion; a fresh incident inserts one initiated
row.  The active trigger endpoint performs no ledger operation at all, so it
never duplicates — but it also does not reset a terminal execution. -/
theorem trigger_single_execution (db : List SREIncidentExecution)
    (inc : IncidentData) (rest : List IncidentData) (payload : String)
    (newId now : Nat) (m : String) :
    (∀ pn ts, (trigger_sre_agent_active db pn ts).1 = db) ∧
    (db.countP (fun e => e.incident_number == m) ≤ 1 →
      (triggerResultDb db (trigger_sre_agent_bkp db (inc :: rest) payload
        newId now)).countP (fun e => e.incident_number == m) ≤ 1) ∧
    (∀ e, inc.number ≠ "" → findByIncidentNumber db inc.number = some e →
      ["running", "initiated"].contains e.status = true →
      trigger_sre_agent_bkp db (inc :: rest) payload newId now =
        Except.ok (db,
          { message := "SRE agent already processing this incident",
            incident_number := inc.number, status := e.status,
            execution_id := e.id,
            dashboard_url := "/dashboard/incident/" ++ inc.number },
          false)) ∧
    (∀ e, inc.number ≠ "" → findByIncidentNumber db inc.number = some e →
      ["running", "initiated"].contains e.status = false →
      trigger_sre_agent_bkp db (inc :: rest) payload newId now =
        Except.ok (updateFirst inc.number (reset_execution payload) db,
          { message := "SRE agent triggered successfully (reprocessing)",
            incident_number := inc.number, status := "initiated",
            execution_id := e.id,
            dashboard_url := "/dashboard/incident/" ++ inc.number },
          true) ∧
      (updateFirst inc.number (reset_execution payload) db).length =
        db.length ∧
      findByIncidentNumber (updateFirst inc.number (reset_execution payload)
        db) inc.number = some (reset_execution payload e) ∧
      (reset_execution payload e).status = "initiated" ∧
      (reset_execution payload e).completed_at = none ∧
      (reset_execution payload e).resolution_summary = none ∧
      (reset_execution payload e).id = e.id) := by
  refine ⟨fun pn ts => rfl, ?_, ?_, ?_⟩
  · intro hcount
    by_cases hn : inc.number = ""
    · simp [trigger_sre_agent_bkp, hn, triggerResultDb]
      exact hcount
    · cases hfind : findByIncidentNumber db inc.number with
      | some e =>
          by_cases hst : e.status = "running" ∨ e.status = "initiated"
          · simp [trigger_sre_agent_bkp, hn, hfind, hst, triggerResultDb]
            exact hcount
          · simp [trigger_sre_agent_bkp, hn, hfind, hst, triggerResultDb,
              countP_updateFirst inc.number m (reset_execution payload)
                (fun x => rfl) db]
            exact hcount
      | none =>
          by_cases hm : inc.number = m
          · subst hm
            have h0 : db.countP (fun e => e.incident_number == inc.number)
                = 0 := countP_eq_zero_of_find?_eq_none db _ hfind
            simp [trigger_sre_agent_bkp, hn, hfind, triggerResultDb,
              List.countP_append, List.countP_cons, h0]
          · simp [trigger_sre_agent_bkp, hn, hfind, triggerResultDb,
              List.countP_append, List.countP_cons, hm]
            exact hcount
  · intro e hn hfind hst
    have hst' : e.status = "running" ∨ e.status = "initiated" := by
      simpa using hst
    simp [trigger_sre_agent_bkp, hn, hfind, hst']
  · intro e hn hfind hst
    have hst' : ¬(e.status = "running" ∨ e.status = "initiated") := by
      simpa using hst
    refine ⟨?_, updateFirst_length _ _ db,
      findByIncidentNumber_updateFirst inc.number (reset_execution payload)
        (fun x => rfl) db e hfind, rfl, rfl, rfl, rfl⟩
    simp [trigger_sre_agent_bkp, hn, hfind, hst']

/-- Witness for the amended C1 theorem: a running row is reused untouched; a
completed row is reset in place. -/
theorem trigger_single_execution_witness :
    trigger_sre_agent_bkp [runningExecutionRow] [sampleIncident] "p" 99 1000 =
      Except.ok ([runningExecutionRow],
        { message := "SRE agent already processing this incident",
          incident_number := "INC0000060", status := "running",
          execution_id := 7,
          dashboard_url := "/dashboard/incident/INC0000060" },
        false) ∧
    trigger_sre_agent_bkp [completedExecutionRow] [sampleIncident] "p" 99
        1000 =
      Except.ok (updateFirst "INC0000060" (reset_execution "p")
          [completedExecutionRow],
        { message := "SRE agent triggered successfully (reprocessing)",
          incident_number := "INC0000060", status := "initiated",
          execution_id := 7,
          dashboard_url := "/dashboard/incident/INC0000060" },
        true) := by
  constructor
  · have h := (trigger_single_execution [runningExecutionRow] sampleIncident
      [] "p" 99 1000 "INC0000060").2.2.1 runningExecutionRow
      (by decide) (by decide) (by decide)
    simpa using h
  · have h := ((trigger_single_execution [completedExecutionRow]
      sampleIncident [] "p" 99 1000 "INC0000060").2.2.2 completedExecutionRow
      (by decide) (by decide) (by decide)).1
    simpa using h

/-- C10 counterexample: re-triggering an incident whose execution is running
makes the backup endpoint answer status running — not initiated — and the
active endpoint always answers execution_id 0, an id carried by no execution
row. -/
theorem trigger_response_cex :
    triggerResponseOf (trigger_sre_agent_bkp [runningExecutionRow]
        [sampleIncident] "payload" 99 1000) =
      some { message := "SRE agent already processing this incident",
             incident_number := "INC0000060", status := "running",
             execution_id := 7,
             dashboard_url := "/dashboard/incident/INC0000060" } ∧
    (trigger_sre_agent_active [runningExecutionRow] (some "INC0000060")
      5).2.execution_id = 0 ∧
    [runningExecutionRow].find? (fun e => e.id == 0) = none := by decide

/-- C10 (amended): both trigger endpoints return at once, their responses a
pure function of the current ledger and payload, independent of the later
background run.  The active endpoint always answers status initiated but
with placeholder execution_id 0 rather than the id of any execution; the
backup endpoint answers the id of the created or reused row — status
initiated for a fresh or reset execution, but echoing the row's current
status when it is still running/initiated. -/
theorem trigger_initiated_response (db : List SREIncidentExecution)
    (pn : Option String) (ts : Nat) (inc : IncidentData)
    (rest : List IncidentData) (payload : String) (newId now : Nat) :
    ((trigger_sre_agent_active db pn ts).2.status = "initiated" ∧
      (trigger_sre_agent_active db pn ts).2.execution_id = 0) ∧
    (inc.number ≠ "" → findByIncidentNumber db inc.number = none →
      triggerResponseOf (trigger_sre_agent_bkp db (inc :: rest) payload newId
          now) =
        some { message := "SRE agent triggered successfully",
               incident_number := inc.number, status := "initiated",
               execution_id := newId,
               dashboard_url := "/dashboard/incident/" ++ inc.number }) ∧
    (∀ e, inc.number ≠ "" → findByIncidentNumber db inc.number = some e →
      ["running", "initiated"].contains e.status = true →
      triggerResponseOf (trigger_sre_agent_bkp db (inc :: rest) payload newId
          now) =
        some { message := "SRE agent already processing this incident",
               incident_number := inc.number, status := e.status,
               execution_id := e.id,
               dashboard_url := "/dashboard/incident/" ++ inc.number }) ∧
    (∀ e, inc.number ≠ "" → findByIncidentNumber db inc.number = some e →
      ["running", "initiated"].contains e.status = false →
      triggerResponseOf (trigger_sre_agent_bkp db (inc :: rest) payload newId
          now) =
        some { message := "SRE agent triggered successfully (reprocessing)",
               incident_number := inc.number, status := "initiated",
               execution_id := e.id,
               dashboard_url := "/dashboard/incident/" ++ inc.number }) := by
  refine ⟨⟨rfl, rfl⟩, ?_, ?_, ?_⟩
  · intro hn hfind
    simp [trigger_sre_agent_bkp, hn, hfind, triggerResponseOf]
  · intro e hn hfind hst
    have hst' : e.status = "running" ∨ e.status = "initiated" := by
      simpa using hst
    simp [trigger_sre_agent_bkp, hn, hfind, hst', triggerResponseOf]
  · intro e hn hfind hst
    have hst' : ¬(e.status = "running" ∨ e.status = "initiated") := by
      simpa using hst
    simp [trigger_sre_agent_bkp, hn, hfind, hst', triggerResponseOf]

/-- Witness for the amended C10 theorem: fresh incident and reused running
incident. -/
theorem trigger_initiated_response_witness :
    triggerResponseOf (trigger_sre_agent_bkp [] [sampleIncident] "p" 99
        1000) =
      some { message := "SRE agent triggered successfully",
             incident_number := "INC0000060", status := "initiated",
             execution_id := 99,
             dashboard_url := "/dashboard/incident/INC0000060" } ∧
    triggerResponseOf (trigger_sre_agent_bkp [runningExecutionRow]
        [sampleIncident] "p" 99 1000) =
      some { message := "SRE agent already processing this incident",
             incident_number := "INC0000060", status := "running",
             execution_id := 7,
             dashboard_url := "/dashboard/incident/INC0000060" } := by
  constructor
  · have h := (trigger_initiated_response [] none 0 sampleIncident [] "p" 99
      1000).2.1 (by decide) (by decide)
    simpa using h
  · have h := (trigger_initiated_response [runningExecutionRow] none 0
      sampleIncident [] "p" 99 1000).2.2.1 runningExecutionRow (by decide)
      (by decide) (by decide)
    simpa using h

end Integraite
